import Mathlib

/-!
Shallow embedding of the FIFA 2026 Schedule Builder backend
(src/Backend/server.py, src/Backend/traffic_service.py,
src/Backend/weather_service.py).

The SQLite tables become Lean lists of rows; each FastAPI handler becomes a
pure function from the database state (plus request data and the current
instant) to a result paired with the post-state.  Cryptographic digests
(SHA-256, MD5) and the JWT encoder are library calls in the source; they are
modelled as injective tagged encodings, and the JWT signature as a field
recording which key signed the token, following the library's contract that a
signature verifies exactly for the signing key.  Time is a natural number of
seconds.
-/

namespace FifaBackend

/-- `SECRET_KEY` constant from src/Backend/server.py line 19. -/
def SECRET_KEY : String := "fifa-2026-secret-key-change-in-production"

/-- `ACCESS_TOKEN_EXPIRE_MINUTES = 60 * 24 * 7` (7 days), server.py line 21. -/
def ACCESS_TOKEN_EXPIRE_MINUTES : Nat := 60 * 24 * 7

/-- Token lifetime in seconds (`timedelta(minutes=ACCESS_TOKEN_EXPIRE_MINUTES)`). -/
def tokenTTLSeconds : Nat := ACCESS_TOKEN_EXPIRE_MINUTES * 60

/-- `hash_password` (server.py lines 111-113) computes the SHA-256 hex digest
of the password.  The digest itself is a library call; it is modelled as an
injective tagged encoding, reflecting that SHA-256 is collision-free on the
inputs considered. -/
def hash_password (password : String) : String :=
  String.mk ('#' :: password.data)

/-- `hashlib.md5(...).hexdigest()` applied to an email (server.py line 190) to
derive the user id.  Modelled as an injective tagged encoding of its input. -/
def md5_hex (s : String) : String :=
  String.mk ('@' :: s.data)

/-- Schedule-id generation `hashlib.md5(f"{user_id}{datetime.utcnow()}")`
(server.py line 282), modelled as an encoding of the user id and the current
instant. -/
def gen_schedule_id (user_id : String) (now : Nat) : String :=
  String.mk ('$' :: (user_id ++ toString now).data)

/-- The payload `{"sub": user_id, "exp": expire}` encoded into the JWT
(server.py line 118).  `sub` is optional because `verify_token` handles its
absence. -/
structure TokenPayload where
  sub : Option String
  exp : Nat
deriving DecidableEq, Repr

/-- A signed JWT: the encoded payload plus a record of which key signed it.
The HMAC signature is a library call; a signature check succeeds exactly when
the verifying key equals the signing key, which is what `sig_key` captures. -/
structure SignedToken where
  payload : TokenPayload
  sig_key : String
deriving DecidableEq, Repr

/-- Error kinds raised by the JWT library during `jwt.decode`, plus the
missing-subject case: the spec taxonomy `Expired | Malformed | BadSignature`. -/
inductive VerifyError where
  | Expired
  | BadSignature
  | Malformed
deriving DecidableEq, Repr

/-- `create_access_token` (server.py lines 115-119):
`expire = utcnow() + timedelta(minutes=ACCESS_TOKEN_EXPIRE_MINUTES)`;
payload `{"sub": user_id, "exp": expire}` signed with `SECRET_KEY`.
The signing key is a parameter so that tokens signed with other keys can be
discussed; the server always passes `SECRET_KEY`. -/
def create_access_token (key : String) (user_id : String) (now : Nat) :
    SignedToken :=
  { payload := { sub := some user_id, exp := now + tokenTTLSeconds }
    sig_key := key }

/-- `jwt.decode(token, key, algorithms=[ALGORITHM])`: the library first checks
the signature, then the `exp` claim (expired when `exp <= now`), and returns
the payload. -/
def jwt_decode (tok : SignedToken) (key : String) (now : Nat) :
    Except VerifyError TokenPayload :=
  if tok.sig_key ≠ key then .error .BadSignature
  else if tok.payload.exp ≤ now then .error .Expired
  else .ok tok.payload

/-- `verify_token` (server.py lines 121-132) at the token-service level:
decode, then extract `sub`; a payload without `sub` is rejected
(`Malformed`, surfaced as "Invalid token" at the HTTP layer). -/
def verify_token (tok : SignedToken) (key : String) (now : Nat) :
    Except VerifyError String :=
  match jwt_decode tok key now with
  | .error e => .error e
  | .ok payload =>
    match payload.sub with
    | none => .error .Malformed
    | some user_id => .ok user_id

/-- An `HTTPException(status_code, detail)` surfaced to the transport. -/
structure HTTPError where
  status : Nat
  detail : String
deriving DecidableEq, Repr

/-- How `verify_token` maps JWT failures to HTTP errors (server.py
lines 126-132): expiry gives "Token expired", everything else
"Invalid token". -/
def verifyErrorHTTP : VerifyError → HTTPError
  | .Expired => ⟨401, "Token expired"⟩
  | .BadSignature => ⟨401, "Invalid token"⟩
  | .Malformed => ⟨401, "Invalid token"⟩

/-- A row of the `users` table (server.py lines 48-56): `user_id` primary key,
`email` unique, `password_hash`, optional `full_name`. -/
structure User where
  user_id : String
  email : String
  password_hash : String
  full_name : Option String
deriving DecidableEq, Repr

/-- A row of the `schedules` table (server.py lines 59-69).  `match_ids` is
stored as a JSON text column via `json.dumps`/`json.loads`, an exact
round-trip for lists of integers, so it is kept as the list itself. -/
structure ScheduleRow where
  schedule_id : String
  user_id : String
  schedule_name : String
  match_ids : List Int
  created_at : Nat
  updated_at : Nat
deriving DecidableEq, Repr

/-- A row of the `push_tokens` table (server.py lines 72-79): `user_id`
primary key. -/
structure PushRow where
  user_id : String
  device_token : String
  updated_at : Nat
deriving DecidableEq, Repr

/-- The SQLite database state: the three tables as row lists in insertion
order. -/
structure DB where
  users : List User
  schedules : List ScheduleRow
  push_tokens : List PushRow
deriving DecidableEq, Repr

/-- The empty database produced by `init_database` on a fresh file. -/
def DB.empty : DB := { users := [], schedules := [], push_tokens := [] }

/-- Request body of `POST /api/auth/register` (`UserRegister`,
server.py lines 88-91). -/
structure UserRegister where
  email : String
  password : String
  full_name : Option String
deriving DecidableEq, Repr

/-- Response body of the auth endpoints (`Token` model, server.py
lines 97-100). -/
structure TokenResp where
  access_token : SignedToken
  token_type : String
  user_id : String
deriving DecidableEq, Repr

/-- The JSON keys of the dict literal returned by `register` and `login`
(server.py lines 202-206 and 226-230), in order. -/
def token_response_fields : List String :=
  ["access_token", "token_type", "user_id"]

/-- Route of the registration endpoint: the decorator
`@app.post("/api/auth/register")` (server.py line 179). -/
def register_route : String × String := ("POST", "/api/auth/register")

/-- `register` handler (server.py lines 179-206): look up the email; if a row
exists fail 400 "Email already registered"; otherwise insert the new user
(id = MD5 of the email, hashed password) and return a fresh token.  The
result is paired with the post-state of the store. -/
def register (db : DB) (user : UserRegister) (now : Nat) :
    Except HTTPError TokenResp × DB :=
  match db.users.find? (fun u => u.email = user.email) with
  | some _ => (.error ⟨400, "Email already registered"⟩, db)
  | none =>
    let user_id := md5_hex user.email
    let row : User :=
      { user_id := user_id, email := user.email
        password_hash := hash_password user.password
        full_name := user.full_name }
    let access_token := create_access_token SECRET_KEY user_id now
    (.ok { access_token := access_token, token_type := "bearer"
           user_id := user_id },
     { db with users := db.users ++ [row] })

/-- `login` handler (server.py lines 208-230): select the row matching both
email and hashed password; absent row means 401 "Invalid email or password"
regardless of which of the two was wrong. -/
def login (db : DB) (email password : String) (now : Nat) :
    Except HTTPError TokenResp × DB :=
  match db.users.find?
      (fun u => u.email = email ∧ u.password_hash = hash_password password) with
  | none => (.error ⟨401, "Invalid email or password"⟩, db)
  | some u =>
    (.ok { access_token := create_access_token SECRET_KEY u.user_id now
           token_type := "bearer", user_id := u.user_id }, db)

/-- Request body of `POST /api/schedules` (`Schedule` model, server.py
lines 102-105; the optional `schedule_id` field is never read by the
handler). -/
structure ScheduleIn where
  schedule_name : String
  match_ids : List Int
deriving DecidableEq, Repr

/-- Response of `create_schedule` (dict literal, server.py lines 291-295). -/
structure CreateScheduleResp where
  schedule_id : String
  schedule_name : String
  match_ids : List Int
deriving DecidableEq, Repr

/-- `create_schedule` handler (server.py lines 272-295): verify the token,
generate the schedule id, insert the row with both timestamps set to now,
echo the name and match ids back. -/
def create_schedule (db : DB) (sched : ScheduleIn) (token : SignedToken)
    (now : Nat) : Except HTTPError CreateScheduleResp × DB :=
  match verify_token token SECRET_KEY now with
  | .error e => (.error (verifyErrorHTTP e), db)
  | .ok user_id =>
    let schedule_id := gen_schedule_id user_id now
    let row : ScheduleRow :=
      { schedule_id := schedule_id, user_id := user_id
        schedule_name := sched.schedule_name, match_ids := sched.match_ids
        created_at := now, updated_at := now }
    (.ok { schedule_id := schedule_id, schedule_name := sched.schedule_name
           match_ids := sched.match_ids },
     { db with schedules := db.schedules ++ [row] })

/-- One entry of the list returned by `get_user_schedules` (server.py
lines 310-316). -/
structure ScheduleItem where
  schedule_id : String
  schedule_name : String
  match_ids : List Int
  created_at : Nat
  updated_at : Nat
deriving DecidableEq, Repr

/-- Projection of a stored row to a response entry (`json.loads` of the
stored `match_ids` text restores the original list). -/
def ScheduleRow.toItem (r : ScheduleRow) : ScheduleItem :=
  { schedule_id := r.schedule_id, schedule_name := r.schedule_name
    match_ids := r.match_ids, created_at := r.created_at
    updated_at := r.updated_at }

/-- Response of `GET /api/schedules/{user_id}` (server.py line 318). -/
structure SchedulesResp where
  user_id : String
  schedules : List ScheduleItem
deriving DecidableEq, Repr

/-- `get_user_schedules` handler (server.py lines 297-318): verify the token
(discarding the verified subject), then select all rows whose `user_id`
column equals the path parameter. -/
def get_user_schedules (db : DB) (user_id : String) (token : SignedToken)
    (now : Nat) : Except HTTPError SchedulesResp × DB :=
  match verify_token token SECRET_KEY now with
  | .error e => (.error (verifyErrorHTTP e), db)
  | .ok _ =>
    (.ok { user_id := user_id
           schedules :=
             (db.schedules.filter (fun r => r.user_id = user_id)).map
               ScheduleRow.toItem }, db)

/-- `delete_schedule` handler (server.py lines 320-335): verify the token,
run `DELETE ... WHERE schedule_id = ? AND user_id = ?`, commit, and only then
raise 404 when no row was affected. -/
def delete_schedule (db : DB) (schedule_id : String) (token : SignedToken)
    (now : Nat) : Except HTTPError String × DB :=
  match verify_token token SECRET_KEY now with
  | .error e => (.error (verifyErrorHTTP e), db)
  | .ok user_id =>
    let remaining := db.schedules.filter
      (fun r => ¬(r.schedule_id = schedule_id ∧ r.user_id = user_id))
    let rowcount := db.schedules.length - remaining.length
    let db' := { db with schedules := remaining }
    if rowcount = 0 then (.error ⟨404, "Schedule not found"⟩, db')
    else (.ok "Schedule deleted successfully", db')

/-- `register_push_token` handler (server.py lines 339-355): verify the
token, then `INSERT OR REPLACE INTO push_tokens` keyed on `user_id` — SQLite
removes any row with the same primary key and inserts the new one. -/
def register_push_token (db : DB) (device_token : String)
    (token : SignedToken) (now : Nat) : Except HTTPError String × DB :=
  match verify_token token SECRET_KEY now with
  | .error e => (.error (verifyErrorHTTP e), db)
  | .ok user_id =>
    (.ok "Push token registered successfully",
     { db with push_tokens :=
         db.push_tokens.filter (fun r => r.user_id ≠ user_id) ++
           [{ user_id := user_id, device_token := device_token
              updated_at := now }] })

/-! ### Traffic and weather provider services

`TrafficService.get_travel_time` and `WeatherService.get_current_weather`
wrap outbound HTTP calls.  The provider interaction is modelled by an
`ApiOutcome` value: `exn` stands for any exception raised inside the `try`
block (network failure, non-2xx status via `raise_for_status`, malformed
JSON, missing keys, out-of-range indexing), `ok` for a successfully parsed
response body.  Numeric JSON values are rationals. -/

/-- Outcome of the provider HTTP call as seen inside the `try` block. -/
inductive ApiOutcome (α : Type) where
  | exn
  | ok (data : α)
deriving DecidableEq, Repr

/-- Python's `round` on a rational: nearest integer, ties to even. -/
def py_round (q : ℚ) : ℤ :=
  let f : ℤ := ⌊q⌋
  let frac : ℚ := q - f
  if frac < 1/2 then f
  else if 1/2 < frac then f + 1
  else if Even f then f else f + 1

/-- Python's `round(x, 1)`: one decimal digit, ties to even. -/
def py_round1 (q : ℚ) : ℚ := (py_round (q * 10) : ℚ) / 10

/-- One element of a Distance Matrix row: its `status`, `duration.value`
(seconds), optional `duration_in_traffic.value`, `distance.value` (meters). -/
structure DistElement where
  status : String
  duration : ℚ
  duration_in_traffic : Option ℚ
  distance : ℚ
deriving DecidableEq, Repr

/-- One entry of the response's `rows` array, holding its `elements`. -/
structure DistRow where
  elements : List DistElement
deriving DecidableEq, Repr

/-- Parsed body of a Distance Matrix response: top-level `status` and
`rows`. -/
structure DistMatrixData where
  status : String
  rows : List DistRow
deriving DecidableEq, Repr

/-- The traffic-ratio computation (traffic_service.py line 65):
`duration_in_traffic / duration if duration > 0 else 1.0`. -/
def traffic_ratio (duration duration_in_traffic : ℚ) : ℚ :=
  if duration > 0 then duration_in_traffic / duration else 1

/-- The threshold classification (traffic_service.py lines 66-71). -/
def traffic_level (ratio : ℚ) : String :=
  if ratio < 11/10 then "light"
  else if ratio < 13/10 then "moderate"
  else "heavy"

/-- The dictionary returned by `get_travel_time` (traffic_service.py
lines 73-84) and by `_mock_traffic_data`. -/
structure TrafficData where
  distance_meters : ℚ
  distance_miles : ℚ
  duration_seconds : ℚ
  duration_minutes : ℤ
  duration_in_traffic_seconds : ℚ
  duration_in_traffic_minutes : ℤ
  traffic_level : String
  traffic_delay_minutes : ℤ
  mode : String
  updated_at : Nat
deriving DecidableEq, Repr

/-- `TrafficService._mock_traffic_data` (traffic_service.py lines 123-136):
the fallback payload, constant except for its timestamp. -/
def mock_traffic_data (now : Nat) : TrafficData :=
  { distance_meters := 15000, distance_miles := 93/10
    duration_seconds := 1200, duration_minutes := 20
    duration_in_traffic_seconds := 1500, duration_in_traffic_minutes := 25
    traffic_level := "moderate", traffic_delay_minutes := 5
    mode := "driving", updated_at := now }

/-- `TrafficService.get_travel_time` (traffic_service.py lines 18-90).
Empty API key short-circuits to the mock; any exception inside the `try`
yields the mock; a parsed response is used only when the top-level status is
"OK", `rows` is non-empty, `rows[0]["elements"][0]` exists (an out-of-range
index raises and is caught), and the element status is "OK"; every other
shape falls through to the mock.  `duration_in_traffic` defaults to
`duration` when absent. -/
def get_travel_time (api_key : String) (resp : ApiOutcome DistMatrixData)
    (mode : String) (now : Nat) : TrafficData :=
  if api_key = "" then mock_traffic_data now
  else
    match resp with
    | .exn => mock_traffic_data now
    | .ok data =>
      if data.status = "OK" then
        match data.rows with
        | [] => mock_traffic_data now
        | row0 :: _ =>
          match row0.elements with
          | [] => mock_traffic_data now
          | el :: _ =>
            if el.status = "OK" then
              let duration := el.duration
              let duration_in_traffic :=
                el.duration_in_traffic.getD duration
              let distance := el.distance
              let ratio := traffic_ratio duration duration_in_traffic
              { distance_meters := distance
                distance_miles := py_round1 (distance * (621371/1000000000))
                duration_seconds := duration
                duration_minutes := py_round (duration / 60)
                duration_in_traffic_seconds := duration_in_traffic
                duration_in_traffic_minutes :=
                  py_round (duration_in_traffic / 60)
                traffic_level := traffic_level ratio
                traffic_delay_minutes :=
                  py_round ((duration_in_traffic - duration) / 60)
                mode := mode, updated_at := now }
            else mock_traffic_data now
      else mock_traffic_data now

/-- The condition under which `get_travel_time` uses the parsed response
rather than the mock: top-level status "OK", a first row, a first element,
and element status "OK" (traffic_service.py lines 56-59). -/
def distMatrixUsable (d : DistMatrixData) : Bool :=
  d.status == "OK" &&
    match d.rows with
    | [] => false
    | row0 :: _ =>
      match row0.elements with
      | [] => false
      | el :: _ => el.status == "OK"

/-- Python `int()` on a rational: truncation toward zero. -/
def py_int (q : ℚ) : ℤ := if 0 ≤ q then ⌊q⌋ else -⌊-q⌋

/-- Fields of a parsed OpenWeatherMap current-weather body that
`get_current_weather` reads: `main.temp`, `weather[0].main`,
`weather[0].description`, `main.humidity`, `wind.speed`,
`main.feels_like`.  A body missing any of them raises inside the `try`
and is the `exn` outcome. -/
structure WeatherApiData where
  temp : ℚ
  condition : String
  description : String
  humidity : ℚ
  wind_speed : ℚ
  feels_like : ℚ
deriving DecidableEq, Repr

/-- The dictionary returned by `get_current_weather` (weather_service.py
lines 45-55) and by `_mock_weather_data`. -/
structure WeatherData where
  temperature : ℤ
  temperature_unit : String
  condition : String
  description : String
  precipitation_chance : ℤ
  humidity : ℚ
  wind_speed : ℤ
  feels_like : ℤ
  updated_at : Nat
deriving DecidableEq, Repr

/-- `WeatherService._mock_weather_data` (weather_service.py lines 110-122). -/
def mock_weather_data (now : Nat) : WeatherData :=
  { temperature := 72, temperature_unit := "F"
    condition := "Partly Cloudy", description := "partly cloudy"
    precipitation_chance := 20, humidity := 65
    wind_speed := 8, feels_like := 70, updated_at := now }

/-- `WeatherService.get_current_weather` (weather_service.py lines 18-59):
empty API key or any exception in the `try` block yields the mock; a parsed
body is converted field by field. -/
def get_current_weather (api_key : String)
    (resp : ApiOutcome WeatherApiData) (now : Nat) : WeatherData :=
  if api_key = "" then mock_weather_data now
  else
    match resp with
    | .exn => mock_weather_data now
    | .ok data =>
      { temperature := py_int data.temp, temperature_unit := "F"
        condition := data.condition, description := data.description
        precipitation_chance := 0, humidity := data.humidity
        wind_speed := py_int data.wind_speed
        feels_like := py_int data.feels_like, updated_at := now }

/-- A sequence of push-token registration requests, each a device token, a
presented JWT and the instant of the request, applied in order through the
`register_push_token` handler. -/
def apply_push_registrations (db : DB)
    (ops : List (String × SignedToken × Nat)) : DB :=
  ops.foldl (fun d op => (register_push_token d op.1 op.2.1 op.2.2).2) db

/-! ## Theorems -/

/-- SHA-256 is collision-free on the inputs considered, so its model is
injective: distinct passwords have distinct digests. -/
theorem hash_password_injective : Function.Injective hash_password := by
  intro a b h
  have h2 := String.ext_iff.mp h
  simp only [hash_password, List.cons.injEq, true_and] at h2
  exact String.ext h2

/-- C2: a token issued for subject `S` verifies to exactly `S` strictly
before its expiry (`issued_at` + 7 days), fails with `Expired` strictly
after it, and a token signed with a different key fails with
`BadSignature`, never resolving to an identity. -/
theorem token_lifecycle (key S : String) (iss now : Nat) :
    (now < iss + tokenTTLSeconds →
      verify_token (create_access_token key S iss) key now = .ok S) ∧
    (iss + tokenTTLSeconds < now →
      verify_token (create_access_token key S iss) key now =
        .error .Expired) ∧
    (∀ tok : SignedToken, tok.sig_key ≠ key →
      verify_token tok key now = .error .BadSignature) := by
  refine ⟨fun h => ?_, fun h => ?_, fun tok h => ?_⟩
  · simp [verify_token, jwt_decode, create_access_token, Nat.not_le.mpr h]
  · simp [verify_token, jwt_decode, create_access_token, Nat.le_of_lt h]
  · simp [verify_token, jwt_decode, h]

/-- Witness for C2: subject "alice", key "k", issued at 0 (TTL 604800 s):
verification succeeds at 604799, expires at 604801, and a token signed with
"other" is rejected at any instant. -/
theorem token_lifecycle_witness :
    verify_token (create_access_token "k" "alice" 0) "k" 604799 =
      .ok "alice" ∧
    verify_token (create_access_token "k" "alice" 0) "k" 604801 =
      .error .Expired ∧
    verify_token (create_access_token "other" "alice" 0) "k" 604799 =
      .error .BadSignature :=
  ⟨(token_lifecycle "k" "alice" 0 604799).1 (by decide),
   (token_lifecycle "k" "alice" 0 604801).2.1 (by decide),
   (token_lifecycle "k" "alice" 0 604799).2.2
     (create_access_token "other" "alice" 0) (by decide)⟩

/-- C3: once `register` has succeeded for an email, every later `register`
with that email fails with 400 "Email already registered" (DuplicateEmail),
leaves the store unchanged, and the store then holds exactly one user row
with that email. -/
theorem register_duplicate_email (db : DB) (u1 : UserRegister)
    (now1 : Nat) (tok : TokenResp)
    (h : (register db u1 now1).1 = .ok tok) :
    ∀ (p2 : String) (fn2 : Option String) (now2 : Nat),
      register (register db u1 now1).2 ⟨u1.email, p2, fn2⟩ now2 =
        (.error ⟨400, "Email already registered"⟩,
          (register db u1 now1).2) ∧
      ((register db u1 now1).2.users.filter
          (fun u => u.email = u1.email)).length = 1 := by
  intro p2 fn2 now2
  rcases hfind : db.users.find? (fun u => u.email = u1.email) with _ | u
  · have hnone := List.find?_eq_none.mp hfind
    constructor
    · simp [register, hfind, List.find?_append]
    · simp [register, hfind, List.filter_append,
        List.filter_eq_nil_iff.mpr hnone]
  · exfalso
    simp [register, hfind] at h

/-- Witness for C3: registering "a@x" on the empty store, then registering
"a@x" again with a different password, fails with 400 and leaves one row. -/
theorem register_duplicate_email_witness :
    register (register DB.empty ⟨"a@x", "pw1", none⟩ 0).2
        ⟨"a@x", "pw2", some "n"⟩ 1 =
      (.error ⟨400, "Email already registered"⟩,
        (register DB.empty ⟨"a@x", "pw1", none⟩ 0).2) ∧
    ((register DB.empty ⟨"a@x", "pw1", none⟩ 0).2.users.filter
        (fun u => u.email = "a@x")).length = 1 :=
  register_duplicate_email DB.empty ⟨"a@x", "pw1", none⟩ 0
    { access_token := create_access_token SECRET_KEY (md5_hex "a@x") 0
      token_type := "bearer", user_id := md5_hex "a@x" }
    (by rfl) "pw2" (some "n") 1

/-- C4: with a stored identity of email `e` and password `p` (and emails
unique in the store), `login` with a wrong password and `login` with an
email absent from the store both fail, with the identical error
401 "Invalid email or password" — the two causes are indistinguishable
from the result. -/
theorem login_invalid_credentials (db : DB) (u : User) (p : String)
    (hu : u ∈ db.users) (hpw : u.password_hash = hash_password p)
    (huniq : ∀ v ∈ db.users, v.email = u.email → v = u) :
    (∀ p' now, p' ≠ p →
      login db u.email p' now =
        (.error ⟨401, "Invalid email or password"⟩, db)) ∧
    (∀ e'' p'' now, (∀ v ∈ db.users, v.email ≠ e'') →
      login db e'' p'' now =
        (.error ⟨401, "Invalid email or password"⟩, db)) := by
  constructor
  · intro p' now hp'
    have hfind : db.users.find?
        (fun v => decide (v.email = u.email) &&
          decide (v.password_hash = hash_password p')) = none := by
      apply List.find?_eq_none.mpr
      intro v hv hvp
      simp only [Bool.and_eq_true, decide_eq_true_eq] at hvp
      obtain ⟨h1, h2⟩ := hvp
      have hvu := huniq v hv h1
      subst hvu
      rw [hpw] at h2
      exact hp' (hash_password_injective h2.symm)
    simp [login, hfind]
  · intro e'' p'' now he
    have hfind : db.users.find?
        (fun v => decide (v.email = e'') &&
          decide (v.password_hash = hash_password p'')) = none := by
      apply List.find?_eq_none.mpr
      intro v hv hvp
      simp only [Bool.and_eq_true, decide_eq_true_eq] at hvp
      exact he v hv hvp.1
    simp [login, hfind]

/-- Witness for C4: a store holding only "a@x" with password "pw": login
with the wrong password "bad" and login with the unknown email "b@x" both
return 401 "Invalid email or password". -/
theorem login_invalid_credentials_witness :
    login { users := [{ user_id := "u1", email := "a@x"
                        password_hash := hash_password "pw"
                        full_name := none }]
            schedules := [], push_tokens := [] } "a@x" "bad" 5 =
      (.error ⟨401, "Invalid email or password"⟩,
        { users := [{ user_id := "u1", email := "a@x"
                      password_hash := hash_password "pw"
                      full_name := none }]
          schedules := [], push_tokens := [] }) ∧
    login { users := [{ user_id := "u1", email := "a@x"
                        password_hash := hash_password "pw"
                        full_name := none }]
            schedules := [], push_tokens := [] } "b@x" "pw" 5 =
      (.error ⟨401, "Invalid email or password"⟩,
        { users := [{ user_id := "u1", email := "a@x"
                      password_hash := hash_password "pw"
                      full_name := none }]
          schedules := [], push_tokens := [] }) := by
  have h := login_invalid_credentials
    { users := [{ user_id := "u1", email := "a@x"
                  password_hash := hash_password "pw", full_name := none }]
      schedules := [], push_tokens := [] }
    { user_id := "u1", email := "a@x"
      password_hash := hash_password "pw", full_name := none }
    "pw" (by decide) (by rfl) (by decide)
  exact ⟨h.1 "bad" 5 (by decide), h.2 "b@x" "pw" 5 (by decide)⟩

/-- C5: for any owner and any list of match ids (duplicates and order
included), `create_schedule` succeeds with the list echoed back unmodified
and with no validation of the ids, and an immediate `get_user_schedules`
for that owner returns an entry carrying exactly that list. -/
theorem create_list_roundtrip (db : DB) (owner name : String)
    (refs : List Int) (tok : SignedToken) (now : Nat)
    (h : verify_token tok SECRET_KEY now = .ok owner) :
    ∃ resp items,
      (create_schedule db ⟨name, refs⟩ tok now).1 = .ok resp ∧
      resp.match_ids = refs ∧
      (get_user_schedules (create_schedule db ⟨name, refs⟩ tok now).2
          owner tok now).1 = .ok ⟨owner, items⟩ ∧
      ∃ item ∈ items,
        item.schedule_id = resp.schedule_id ∧ item.match_ids = refs := by
  simp only [create_schedule, h, get_user_schedules]
  refine ⟨_, _, rfl, rfl, rfl, ?_⟩
  refine ⟨_, List.mem_map_of_mem _
    (List.mem_filter.mpr
      ⟨List.mem_append_right _ (List.mem_singleton_self _), by simp⟩),
    rfl, rfl⟩

/-- Witness for C5: owner "alice" creates "My Plan" with
[101, 102, 102, 103] on the empty store at instant 0 and immediately lists;
an entry with exactly that list (duplicates preserved) comes back. -/
theorem create_list_roundtrip_witness :
    ∃ resp items,
      (create_schedule DB.empty ⟨"My Plan", [101, 102, 102, 103]⟩
          (create_access_token SECRET_KEY "alice" 0) 0).1 = .ok resp ∧
      resp.match_ids = [101, 102, 102, 103] ∧
      (get_user_schedules
          (create_schedule DB.empty ⟨"My Plan", [101, 102, 102, 103]⟩
            (create_access_token SECRET_KEY "alice" 0) 0).2
          "alice" (create_access_token SECRET_KEY "alice" 0) 0).1 =
        .ok ⟨"alice", items⟩ ∧
      ∃ item ∈ items,
        item.schedule_id = resp.schedule_id ∧
          item.match_ids = [101, 102, 102, 103] :=
  create_list_roundtrip DB.empty "alice" "My Plan" [101, 102, 102, 103]
    (create_access_token SECRET_KEY "alice" 0) 0 (by rfl)

/-- C10: `get_user_schedules` is not ownership-restricted — any token that
verifies to some subject `S`, even with `S` different from the path user id
`U`, yields exactly the schedules owned by `U`; `S` is never compared with
`U`. -/
theorem list_not_ownership_restricted (db : DB) (U : String)
    (tok : SignedToken) (now : Nat) (S : String)
    (h : verify_token tok SECRET_KEY now = .ok S) :
    ∃ items,
      get_user_schedules db U tok now = (.ok ⟨U, items⟩, db) ∧
      (∀ r ∈ db.schedules, r.user_id = U → r.toItem ∈ items) ∧
      (∀ item ∈ items,
        ∃ r ∈ db.schedules, r.user_id = U ∧ r.toItem = item) := by
  simp only [get_user_schedules, h]
  refine ⟨_, rfl, ?_, ?_⟩
  · intro r hr hrU
    exact List.mem_map_of_mem _ (List.mem_filter.mpr ⟨hr, by simp [hrU]⟩)
  · intro item hitem
    obtain ⟨r, hr, rfl⟩ := List.mem_map.mp hitem
    have hr' := List.mem_filter.mp hr
    exact ⟨r, hr'.1, by simpa using hr'.2, rfl⟩

/-- Witness for C10: a store holding one schedule owned by "alice"; a valid
token for the different subject "mallory" still retrieves alice's
schedule. -/
theorem list_not_ownership_restricted_witness :
    ∃ items,
      get_user_schedules
          { users := [], push_tokens := []
            schedules := [{ schedule_id := "s1", user_id := "alice"
                            schedule_name := "Plan", match_ids := [7]
                            created_at := 0, updated_at := 0 }] }
          "alice" (create_access_token SECRET_KEY "mallory" 0) 0 =
        (.ok ⟨"alice", items⟩,
          { users := [], push_tokens := []
            schedules := [{ schedule_id := "s1", user_id := "alice"
                            schedule_name := "Plan", match_ids := [7]
                            created_at := 0, updated_at := 0 }] }) ∧
      (∀ r ∈ [({ schedule_id := "s1", user_id := "alice"
                 schedule_name := "Plan", match_ids := [7]
                 created_at := 0, updated_at := 0 } : ScheduleRow)],
        r.user_id = "alice" → r.toItem ∈ items) ∧
      (∀ item ∈ items,
        ∃ r ∈ [({ schedule_id := "s1", user_id := "alice"
                  schedule_name := "Plan", match_ids := [7]
                  created_at := 0, updated_at := 0 } : ScheduleRow)],
          r.user_id = "alice" ∧ r.toItem = item) :=
  list_not_ownership_restricted
    { users := [], push_tokens := []
      schedules := [{ schedule_id := "s1", user_id := "alice"
                      schedule_name := "Plan", match_ids := [7]
                      created_at := 0, updated_at := 0 }] }
    "alice" (create_access_token SECRET_KEY "mallory" 0) 0 "mallory"
    (by rfl)

/-- C1: after owner `A` creates a schedule, a delete of that schedule id
presented with a token verifying to a different owner `B` fails with
404 "Schedule not found" (not 403), leaves the store unchanged, and the
schedule is still returned when listing `A`'s schedules.  The freshness
hypothesis is the `schedule_id` PRIMARY KEY invariant of the table. -/
theorem delete_cross_owner (db : DB) (A B name : String)
    (refs : List Int) (tokA tokB : SignedToken) (nowC nowD : Nat)
    (hA : verify_token tokA SECRET_KEY nowC = .ok A)
    (hB : verify_token tokB SECRET_KEY nowD = .ok B)
    (hAB : B ≠ A)
    (hfresh : ∀ r ∈ db.schedules, r.schedule_id ≠ gen_schedule_id A nowC) :
    delete_schedule (create_schedule db ⟨name, refs⟩ tokA nowC).2
        (gen_schedule_id A nowC) tokB nowD =
      (.error ⟨404, "Schedule not found"⟩,
        (create_schedule db ⟨name, refs⟩ tokA nowC).2) ∧
    ∀ nowL2, verify_token tokA SECRET_KEY nowL2 = .ok A →
      ∃ items,
        (get_user_schedules (create_schedule db ⟨name, refs⟩ tokA nowC).2
            A tokA nowL2).1 = .ok ⟨A, items⟩ ∧
        ∃ item ∈ items,
          item.schedule_id = gen_schedule_id A nowC ∧
            item.match_ids = refs := by
  constructor
  · simp only [create_schedule, hA, delete_schedule, hB]
    have h1 : List.filter
        (fun r => !decide (r.schedule_id = gen_schedule_id A nowC) ||
          !decide (r.user_id = B)) db.schedules = db.schedules := by
      apply List.filter_eq_self.mpr
      intro r hr
      simp [hfresh r hr]
    have h2 : List.filter
        (fun r => !decide (r.schedule_id = gen_schedule_id A nowC) ||
          !decide (r.user_id = B))
        [({ schedule_id := gen_schedule_id A nowC, user_id := A
            schedule_name := name, match_ids := refs
            created_at := nowC, updated_at := nowC } : ScheduleRow)] =
        [({ schedule_id := gen_schedule_id A nowC, user_id := A
            schedule_name := name, match_ids := refs
            created_at := nowC, updated_at := nowC } : ScheduleRow)] := by
      simp [Ne.symm hAB]
    simp [h1, h2]
  · intro nowL2 hL
    simp only [create_schedule, hA, get_user_schedules, hL]
    refine ⟨_, rfl, _, List.mem_map_of_mem _
      (List.mem_filter.mpr
        ⟨List.mem_append_right _ (List.mem_singleton_self _), by simp⟩),
      rfl, rfl⟩

/-- Witness for C1: "alice" creates a schedule on the empty store; a delete
presented with "bob"'s valid token fails 404, the store keeps the row, and
listing "alice" still returns it. -/
theorem delete_cross_owner_witness :
    delete_schedule
        (create_schedule DB.empty ⟨"Plan", [201]⟩
          (create_access_token SECRET_KEY "alice" 0) 0).2
        (gen_schedule_id "alice" 0)
        (create_access_token SECRET_KEY "bob" 0) 0 =
      (.error ⟨404, "Schedule not found"⟩,
        (create_schedule DB.empty ⟨"Plan", [201]⟩
          (create_access_token SECRET_KEY "alice" 0) 0).2) ∧
    ∀ nowL2,
      verify_token (create_access_token SECRET_KEY "alice" 0) SECRET_KEY
          nowL2 = .ok "alice" →
      ∃ items,
        (get_user_schedules
            (create_schedule DB.empty ⟨"Plan", [201]⟩
              (create_access_token SECRET_KEY "alice" 0) 0).2
            "alice" (create_access_token SECRET_KEY "alice" 0) nowL2).1 =
          .ok ⟨"alice", items⟩ ∧
        ∃ item ∈ items,
          item.schedule_id = gen_schedule_id "alice" 0 ∧
            item.match_ids = [201] :=
  delete_cross_owner DB.empty "alice" "bob" "Plan" [201]
    (create_access_token SECRET_KEY "alice" 0)
    (create_access_token SECRET_KEY "bob" 0) 0 0
    (by rfl) (by rfl) (by decide) (by simp [DB.empty])

/-- One push-token registration keeps every per-user row count at most 1:
for the acting user the `INSERT OR REPLACE` leaves exactly one row, and
other users' counts are unchanged. -/
theorem push_step_preserves (d : DB) (t : String) (tok : SignedToken)
    (now : Nat)
    (h : ∀ u, d.push_tokens.countP (fun r => r.user_id = u) ≤ 1) :
    ∀ u, ((register_push_token d t tok now).2.push_tokens.countP
      (fun r => r.user_id = u)) ≤ 1 := by
  intro u
  rcases hv : verify_token tok SECRET_KEY now with e | uid
  · simpa [register_push_token, hv] using h u
  · simp only [register_push_token, hv, List.countP_append,
      List.countP_filter]
    by_cases hu : u = uid
    · subst hu
      have hz : d.push_tokens.countP
          (fun a => decide (a.user_id = u) && !decide (a.user_id = u)) =
            0 := by
        apply List.countP_eq_zero.mpr
        intro a _
        simp
      simp [hz]
    · have hone : d.push_tokens.countP
          (fun a => decide (a.user_id = u) && !decide (a.user_id = uid)) ≤
            1 := by
        refine le_trans (List.countP_mono_left fun a _ ha => ?_) (h u)
        simpa using (Bool.and_elim_left ha)
      simpa [Ne.symm hu] using hone

/-- C6: per-user uniqueness of push-token rows — any sequence of
registrations preserves "at most one row per identity", and two
registrations for the same verified identity with device tokens `t1` then
`t2` leave that identity exactly one row, holding `t2`. -/
theorem push_token_single_row (db : DB) :
    (∀ ops : List (String × SignedToken × Nat),
      (∀ u, db.push_tokens.countP (fun r => r.user_id = u) ≤ 1) →
      ∀ u, ((apply_push_registrations db ops).push_tokens.countP
        (fun r => r.user_id = u)) ≤ 1) ∧
    (∀ t1 t2 tok1 tok2 now1 now2 uid,
      verify_token tok1 SECRET_KEY now1 = .ok uid →
      verify_token tok2 SECRET_KEY now2 = .ok uid →
      ((register_push_token (register_push_token db t1 tok1 now1).2 t2
          tok2 now2).2.push_tokens.filter (fun r => r.user_id = uid)) =
        [{ user_id := uid, device_token := t2, updated_at := now2 }]) := by
  constructor
  · intro ops
    induction ops generalizing db with
    | nil => intro h u; exact h u
    | cons op rest ih =>
      intro h u
      have hstep := push_step_preserves db op.1 op.2.1 op.2.2 h
      have : apply_push_registrations db (op :: rest) =
          apply_push_registrations
            (register_push_token db op.1 op.2.1 op.2.2).2 rest := rfl
      rw [this]
      exact ih _ hstep u
  · intro t1 t2 tok1 tok2 now1 now2 uid h1 h2
    simp [register_push_token, h1, h2, List.filter_append,
      List.filter_filter]

/-- Witness for C6: on the empty store, registering "d1" then "d2" for the
verified subject "alice" leaves a count of at most one row for "alice", and
the rows for "alice" are exactly one row holding "d2". -/
theorem push_token_single_row_witness :
    ((apply_push_registrations DB.empty
        [("d1", create_access_token SECRET_KEY "alice" 0, 0),
         ("d2", create_access_token SECRET_KEY "alice" 0, 1)]).push_tokens.countP
      (fun r => r.user_id = "alice")) ≤ 1 ∧
    ((register_push_token
        (register_push_token DB.empty "d1"
          (create_access_token SECRET_KEY "alice" 0) 0).2 "d2"
        (create_access_token SECRET_KEY "alice" 0) 1).2.push_tokens.filter
      (fun r => r.user_id = "alice")) =
      [{ user_id := "alice", device_token := "d2", updated_at := 1 }] :=
  ⟨(push_token_single_row DB.empty).1
      [("d1", create_access_token SECRET_KEY "alice" 0, 0),
       ("d2", create_access_token SECRET_KEY "alice" 0, 1)]
      (by intro u; simp [DB.empty]) "alice",
   (push_token_single_row DB.empty).2 "d1" "d2"
      (create_access_token SECRET_KEY "alice" 0)
      (create_access_token SECRET_KEY "alice" 0) 0 1 "alice"
      (by rfl) (by rfl)⟩

/-- C7: the provider wrappers always return a value (they are total
functions into their data types), and in every failure case — missing API
key, an exception from the HTTP call or parsing, or a response shape the
code rejects — the result is the fallback payload, with no error
propagated. -/
theorem provider_failures_fall_back (now : Nat) :
    (∀ (key mode : String) (resp : ApiOutcome DistMatrixData),
      key = "" ∨ resp = .exn ∨
        (∃ d, resp = .ok d ∧ distMatrixUsable d = false) →
      get_travel_time key resp mode now = mock_traffic_data now) ∧
    (∀ (key : String) (resp : ApiOutcome WeatherApiData),
      key = "" ∨ resp = .exn →
      get_current_weather key resp now = mock_weather_data now) := by
  constructor
  · rintro key mode resp (rfl | rfl | ⟨d, rfl, hd⟩)
    · simp [get_travel_time]
    · simp [get_travel_time]
    · by_cases hk : key = ""
      · simp [get_travel_time, hk]
      · simp only [get_travel_time, if_neg hk]
        rcases d with ⟨st, rows⟩
        by_cases hst : st = "OK"
        · subst hst
          simp only [distMatrixUsable] at hd
          cases rows with
          | nil => simp
          | cons r0 rest =>
            cases hels : r0.elements with
            | nil => simp [hels]
            | cons el els =>
              simp only [hels] at hd
              simp at hd
              simp [hels, hd]
        · simp [hst]
  · rintro key resp (rfl | rfl)
    · simp [get_current_weather]
    · simp [get_current_weather]

/-- Witness for C7: with an empty API key, an exception outcome, and a
response whose element status is "ZERO_RESULTS", both services return their
mock payloads (timestamp 42). -/
theorem provider_failures_fall_back_witness :
    get_travel_time "" .exn "driving" 42 = mock_traffic_data 42 ∧
    get_travel_time "k" .exn "driving" 42 = mock_traffic_data 42 ∧
    get_travel_time "k"
        (.ok ⟨"OK", [⟨[⟨"ZERO_RESULTS", 100, none, 5⟩]⟩]⟩) "driving" 42 =
      mock_traffic_data 42 ∧
    get_current_weather "" .exn 42 = mock_weather_data 42 ∧
    get_current_weather "k" .exn 42 = mock_weather_data 42 :=
  ⟨(provider_failures_fall_back 42).1 "" "driving" .exn (.inl rfl),
   (provider_failures_fall_back 42).1 "k" "driving" .exn (.inr (.inl rfl)),
   (provider_failures_fall_back 42).1 "k" "driving"
     (.ok ⟨"OK", [⟨[⟨"ZERO_RESULTS", 100, none, 5⟩]⟩]⟩)
     (.inr (.inr ⟨_, rfl, by rfl⟩)),
   (provider_failures_fall_back 42).2 "" .exn (.inl rfl),
   (provider_failures_fall_back 42).2 "k" .exn (.inr rfl)⟩

/-- C9: the traffic-ratio computation never divides by zero — a zero
duration makes the ratio default to 1 and the level "light" — and for
positive durations the classification is "light" exactly below 1.1,
"moderate" exactly in [1.1, 1.3), and "heavy" exactly from 1.3 up. -/
theorem traffic_ratio_classification :
    (∀ dit : ℚ, traffic_ratio 0 dit = 1 ∧
      traffic_level (traffic_ratio 0 dit) = "light") ∧
    ∀ d dit : ℚ, 0 < d →
      (traffic_level (traffic_ratio d dit) = "light" ↔
        traffic_ratio d dit < 11/10) ∧
      (traffic_level (traffic_ratio d dit) = "moderate" ↔
        11/10 ≤ traffic_ratio d dit ∧ traffic_ratio d dit < 13/10) ∧
      (traffic_level (traffic_ratio d dit) = "heavy" ↔
        13/10 ≤ traffic_ratio d dit) := by
  constructor
  · intro dit
    refine ⟨by norm_num [traffic_ratio], ?_⟩
    norm_num [traffic_ratio, traffic_level]
  · intro d dit _
    generalize traffic_ratio d dit = r
    unfold traffic_level
    by_cases h1 : r < 11/10
    · simp only [if_pos h1]
      exact ⟨⟨fun _ => h1, fun _ => trivial⟩,
        ⟨fun h => absurd h (by decide),
         fun h => absurd h1 (not_lt.mpr h.1)⟩,
        ⟨fun h => absurd h (by decide),
         fun h => absurd h1 (not_lt.mpr (le_trans (by norm_num) h))⟩⟩
    · by_cases h2 : r < 13/10
      · simp only [if_neg h1, if_pos h2]
        exact ⟨⟨fun h => absurd h (by decide), fun h => absurd h h1⟩,
          ⟨fun _ => ⟨not_lt.mp h1, h2⟩, fun _ => trivial⟩,
          ⟨fun h => absurd h (by decide),
           fun h => absurd h2 (not_lt.mpr h)⟩⟩
      · simp only [if_neg h1, if_neg h2]
        exact ⟨⟨fun h => absurd h (by decide), fun h => absurd h h1⟩,
          ⟨fun h => absurd h (by decide), fun h => absurd h.2 h2⟩,
          ⟨fun _ => not_lt.mp h2, fun _ => trivial⟩⟩

/-- Witness for C9: duration 0 gives ratio 1 and level "light"; duration 1
with in-traffic duration 2 gives ratio 2, classified "heavy" (and the three
iffs hold at that point). -/
theorem traffic_ratio_classification_witness :
    (traffic_ratio 0 5 = 1 ∧
      traffic_level (traffic_ratio 0 5) = "light") ∧
    (traffic_level (traffic_ratio 1 2) = "light" ↔
      traffic_ratio 1 2 < 11/10) ∧
    (traffic_level (traffic_ratio 1 2) = "moderate" ↔
      11/10 ≤ traffic_ratio 1 2 ∧ traffic_ratio 1 2 < 13/10) ∧
    (traffic_level (traffic_ratio 1 2) = "heavy" ↔
      13/10 ≤ traffic_ratio 1 2) :=
  ⟨traffic_ratio_classification.1 5,
   traffic_ratio_classification.2 1 2 (by norm_num)⟩

/-- C8 counterexample: the registration endpoint is mounted at
"/api/auth/register" (decorator on server.py line 179), so the path
"/auth/register" named by the claim is not its route. -/
theorem register_route_path_differs :
    register_route ≠ ("POST", "/auth/register") := by decide

/-- C8 (amended): the registration endpoint is exposed at
POST /api/auth/register, its body is {email, password, full_name?}
(the `UserRegister` model), and on success the response carries exactly
the JSON fields {access_token, token_type, user_id} with
token_type = "bearer" and user_id the id of the created identity. -/
theorem register_endpoint_shape :
    register_route = ("POST", "/api/auth/register") ∧
    token_response_fields = ["access_token", "token_type", "user_id"] ∧
    ∀ (db : DB) (u : UserRegister) (now : Nat) (tok : TokenResp),
      (register db u now).1 = .ok tok →
      tok.token_type = "bearer" ∧ tok.user_id = md5_hex u.email := by
  refine ⟨rfl, rfl, fun db u now tok h => ?_⟩
  rcases hfind : db.users.find? (fun v => v.email = u.email) with _ | v
  · simp [register, hfind] at h
    rw [← h]
    exact ⟨rfl, rfl⟩
  · simp [register, hfind] at h

/-- Witness for C8 (amended): registering "a@x" on the empty store returns
token_type "bearer" and the id derived from the email. -/
theorem register_endpoint_shape_witness :
    register_route = ("POST", "/api/auth/register") ∧
    token_response_fields = ["access_token", "token_type", "user_id"] ∧
    ({ access_token := create_access_token SECRET_KEY (md5_hex "a@x") 3
       token_type := "bearer"
       user_id := md5_hex "a@x" } : TokenResp).token_type = "bearer" ∧
    ({ access_token := create_access_token SECRET_KEY (md5_hex "a@x") 3
       token_type := "bearer"
       user_id := md5_hex "a@x" } : TokenResp).user_id = md5_hex "a@x" :=
  ⟨register_endpoint_shape.1, register_endpoint_shape.2.1,
   register_endpoint_shape.2.2 DB.empty ⟨"a@x", "pw", none⟩ 3
     { access_token := create_access_token SECRET_KEY (md5_hex "a@x") 3
       token_type := "bearer", user_id := md5_hex "a@x" } (by rfl)⟩

end FifaBackend
